import Mathlib

/-!
Verification development for the Mobi-Tickets backend core: the ticket
inventory / purchase subsystem, QR credential codec, ticket validation,
refund review, flash-sale promo counter, and wallet-login replay guard.

The definitions below are a shallow embedding of the TypeScript source:
  * `purchaseTickets`, `getTicketQR`, `generateTicketQR`, `validateTicket`
    from `modules/tickets/tickets.service.ts`
  * `purchaseTicketSchema` (zod) from `modules/tickets/tickets.schema.ts`
  * `reviewRefundRequest` from `modules/admin/admin.service.ts`
  * `validatePromoCode`, `redeemFlashSale` from
    `modules/flashsales/flashsales.service.ts`
  * `walletLogin` from `modules/auth/auth.service.ts`

The Prisma database is modelled as lists of rows; a Prisma `$transaction`
is modelled by returning the original state on error (rollback).  Database
ids generated by Prisma (UUIDs) are supplied by the caller in an
environment record, since they are nondeterministic.  Prices are `ℚ`
(the column type is an exact decimal from the model's point of view);
times are `Int` (Unix seconds).  BullMQ job enqueues are modelled as an
effect list together with success/failure flags in the environment:
enqueued jobs live outside the database transaction, so they survive a
rollback, while an enqueue failure raises inside the transaction.
-/

namespace MobiTickets

instance {ε α : Type} [DecidableEq ε] [DecidableEq α] : DecidableEq (Except ε α) := fun a b =>
  match a, b with
  | .ok x, .ok y =>
    if h : x = y then .isTrue (by rw [h]) else .isFalse (by intro hc; cases hc; exact h rfl)
  | .ok _, .error _ => .isFalse (by intro hc; cases hc)
  | .error _, .ok _ => .isFalse (by intro hc; cases hc)
  | .error e, .error f =>
    if h : e = f then .isTrue (by rw [h]) else .isFalse (by intro hc; cases hc; exact h rfl)

/-- `OrderStatus` enum from the Prisma schema. -/
inductive OrderStatus
  | PENDING | PAID | CANCELLED | REFUNDED
deriving DecidableEq, Repr

/-- `TicketPurchaseStatus` enum from the Prisma schema. -/
inductive PurchaseStatus
  | ACTIVE | USED | TRANSFERRED | REFUNDED
deriving DecidableEq, Repr

/-- `RefundStatus` enum from the Prisma schema. -/
inductive RefundStatus
  | PENDING | APPROVED | REJECTED
deriving DecidableEq, Repr

/-- The `status: 'APPROVED' | 'REJECTED'` parameter of `reviewRefundRequest`. -/
inductive ReviewDecision
  | APPROVED | REJECTED
deriving DecidableEq, Repr

/-- A row of the `tickets` table (a ticket category, i.e. an inventory
unit).  `maxPerPurchase`, `salesStartTime` and `salesEndTime` exist in the
migration (`maxPerPurchase INTEGER NOT NULL DEFAULT 10`,
`salesStartTime`/`salesEndTime` nullable timestamps). -/
structure Ticket where
  id : String
  eventId : String
  name : String
  category : String
  price : ℚ
  totalQuantity : Int
  availableQuantity : Int
  maxPerPurchase : Int
  salesStartTime : Option Int
  salesEndTime : Option Int
deriving DecidableEq, Repr

/-- A row of the `orders` table. -/
structure Order where
  id : String
  userId : String
  eventId : String
  totalAmount : ℚ
  status : OrderStatus
deriving DecidableEq, Repr

/-- A row of the `order_items` table. -/
structure OrderItem where
  id : String
  orderId : String
  ticketId : String
  quantity : Int
  priceAtTime : ℚ
deriving DecidableEq, Repr

/-- A row of the `ticket_purchases` table (one redeemable instance). -/
structure TicketPurchase where
  id : String
  userId : String
  orderId : String
  ticketId : String
  eventId : String
  status : PurchaseStatus
deriving DecidableEq, Repr

/-- A row of the `users` table (fields used by the modelled services). -/
structure User where
  id : String
  email : String
  fullName : String
deriving DecidableEq, Repr

/-- A row of the `events` table (fields used by the modelled services). -/
structure Event where
  id : String
  title : String
deriving DecidableEq, Repr

/-- A row of the `refund_requests` table. -/
structure RefundRequest where
  id : String
  orderId : String
  userId : String
  amount : ℚ
  status : RefundStatus
  reviewedBy : Option String
deriving DecidableEq, Repr

/-- A row of the `flash_sales` table. -/
structure FlashSale where
  id : String
  eventId : String
  name : String
  promoCode : Option String
  isActive : Bool
  startTime : Int
  endTime : Int
  maxRedemptions : Option Int
  currentRedemptions : Int
  discountPercent : Option ℚ
  discountAmount : Option ℚ
  ticketCategories : List String
deriving DecidableEq, Repr

/-- The relational store. -/
structure DB where
  tickets : List Ticket
  orders : List Order
  orderItems : List OrderItem
  ticketPurchases : List TicketPurchase
  users : List User
  events : List Event
  refundRequests : List RefundRequest
  flashSales : List FlashSale
deriving DecidableEq, Repr

/-! ## Row lookups (Prisma `findUnique` / `findFirst`) -/

/-- `tx.ticket.findUnique({ where: { id } })`. -/
def findTicket (db : DB) (id : String) : Option Ticket :=
  db.tickets.find? (fun t => t.id == id)

/-- `prisma.order.findUnique({ where: { id } })`. -/
def findOrder (db : DB) (id : String) : Option Order :=
  db.orders.find? (fun o => o.id == id)

/-- `prisma.user.findUnique({ where: { id } })`. -/
def findUser (db : DB) (id : String) : Option User :=
  db.users.find? (fun u => u.id == id)

/-- `prisma.event` lookup used by `include: { event: ... }`. -/
def findEvent (db : DB) (id : String) : Option Event :=
  db.events.find? (fun e => e.id == id)

/-- `prisma.ticketPurchase.findFirst({ where: { orderId, ticketId } })`. -/
def findTicketPurchase (db : DB) (orderId ticketId : String) : Option TicketPurchase :=
  db.ticketPurchases.find? (fun p => p.orderId == orderId && p.ticketId == ticketId)

/-- `prisma.refundRequest.findUnique({ where: { id } })`. -/
def findRefundRequest (db : DB) (id : String) : Option RefundRequest :=
  db.refundRequests.find? (fun r => r.id == id)

/-! ## Redemption credential codec

`generateTicketQR` serialises `{ ticketId, orderId, timestamp }` with
`JSON.stringify` and renders it as a QR image (the image rendering is the
external `qrcode` library and is not modelled: the credential is its
payload string).  `validateTicket` recovers the payload with
`JSON.parse`.  We model the exact serialised shape and an executable
parser for it. -/

/-- The QR payload `{ ticketId, orderId, timestamp }` of `generateTicketQR`. -/
structure QRPayload where
  ticketId : String
  orderId : String
  timestamp : String
deriving DecidableEq, Repr

/-- `JSON.stringify({ ticketId, orderId, timestamp })` for string fields
that need no JSON escaping. -/
def qrEncode (p : QRPayload) : String :=
  "\x7b\"ticketId\":\"" ++ p.ticketId ++ "\",\"orderId\":\"" ++ p.orderId ++
    "\",\"timestamp\":\"" ++ p.timestamp ++ "\"\x7d"

/-- Consume an expected literal character sequence; return the rest. -/
def parseLit : List Char → List Char → Option (List Char)
  | [], s => some s
  | _ :: _, [] => none
  | l :: ls, c :: cs => if l = c then parseLit ls cs else none

/-- Consume characters up to (and including) the closing `"` of a JSON
string value; return the value and the rest. -/
def parseStrVal : List Char → Option (List Char × List Char)
  | [] => none
  | c :: cs =>
    if c = '"' then some ([], cs)
    else
      match parseStrVal cs with
      | some (v, r) => some (c :: v, r)
      | none => none

/-- `JSON.parse` specialised to the exact shape `qrEncode` emits. -/
def qrDecode (s : String) : Option QRPayload :=
  match parseLit ("\x7b\"ticketId\":\"").data s.data with
  | none => none
  | some r1 =>
    match parseStrVal r1 with
    | none => none
    | some (t, r2) =>
      match parseLit (",\"orderId\":\"").data r2 with
      | none => none
      | some r3 =>
        match parseStrVal r3 with
        | none => none
        | some (o, r4) =>
          match parseLit (",\"timestamp\":\"").data r4 with
          | none => none
          | some r5 =>
            match parseStrVal r5 with
            | none => none
            | some (ts, r6) =>
              if r6 = ['\x7d'] then some ⟨String.mk t, String.mk o, String.mk ts⟩
              else none

/-- A string that `JSON.stringify` serialises verbatim (no `"` inside). -/
def quoteFree (s : String) : Prop := '"' ∉ s.data

instance (s : String) : Decidable (quoteFree s) := by
  unfold quoteFree; infer_instance

/-! ## Purchase Orchestrator (`purchaseTickets`)

The service body runs inside `prisma.$transaction`; an error anywhere in
the body rolls the database back to its pre-transaction state.  The
BullMQ enqueues (`emailQueue.add`, `nftQueue.add`) are performed inside
the transaction body; they are external to the database, so jobs already
enqueued survive a rollback, while a failing enqueue aborts the
transaction. -/

/-- A side-effect request enqueued during the purchase. -/
inductive Effect
  | emailJob (recipient : String) (orderId : String)
  | nftJob (ticketId : String)
deriving DecidableEq, Repr

/-- Nondeterministic inputs of one `purchaseTickets` call: the Prisma-generated
row ids, the `new Date().toISOString()` timestamp baked into the QR payload,
and whether each BullMQ enqueue succeeds. -/
structure PurchaseEnv where
  newOrderId : String
  newItemId : String
  nowIso : String
  emailOk : Bool
  nftOk : Bool
deriving DecidableEq, Repr

/-- Successful result of `purchaseTickets`: `{ order, qrCode }`. -/
structure PurchaseOk where
  order : Order
  qrCode : String
deriving DecidableEq, Repr

/-- The body of the `prisma.$transaction` callback in `purchaseTickets`,
returning the enqueued jobs together with either the updated database and
result or the raised error. -/
def purchaseTicketsTx (db : DB) (userId ticketId : String) (quantity : Int)
    (env : PurchaseEnv) : List Effect × Except String (DB × PurchaseOk) :=
  match findTicket db ticketId with
  | none => ([], .error "Insufficient tickets available")
  | some ticket =>
    if ticket.availableQuantity < quantity then
      ([], .error "Insufficient tickets available")
    else
      let db1 : DB :=
        { db with
          tickets := db.tickets.map fun t =>
            if t.id == ticketId then
              { t with availableQuantity := t.availableQuantity - quantity }
            else t }
      let order : Order :=
        { id := env.newOrderId
          userId := userId
          eventId := ticket.eventId
          totalAmount := ticket.price * (quantity : ℚ)
          status := .PENDING }
      let db2 : DB := { db1 with orders := order :: db1.orders }
      let item : OrderItem :=
        { id := env.newItemId
          orderId := order.id
          ticketId := ticketId
          quantity := quantity
          priceAtTime := ticket.price }
      let db3 : DB := { db2 with orderItems := item :: db2.orderItems }
      let qrCode := qrEncode ⟨ticketId, order.id, env.nowIso⟩
      match findUser db3 userId with
      | some user =>
        if env.emailOk then
          if env.nftOk then
            ([Effect.emailJob user.email order.id, Effect.nftJob ticketId],
             .ok (db3, ⟨order, qrCode⟩))
          else
            ([Effect.emailJob user.email order.id], .error "queue unavailable")
        else
          ([], .error "queue unavailable")
      | none =>
        if env.nftOk then
          ([Effect.nftJob ticketId], .ok (db3, ⟨order, qrCode⟩))
        else
          ([], .error "queue unavailable")

/-- `purchaseTickets` with the `$transaction` wrapper: on error the database
rolls back to its input state, but jobs already enqueued are kept (BullMQ is
outside the database transaction). -/
def purchaseTickets (db : DB) (userId ticketId : String) (quantity : Int)
    (env : PurchaseEnv) : DB × List Effect × Except String PurchaseOk :=
  match purchaseTicketsTx db userId ticketId quantity env with
  | (effs, .ok (db', r)) => (db', effs, .ok r)
  | (effs, .error e) => (db, effs, .error e)

/-- The `POST /purchase` route: `purchaseTicketSchema` (zod) requires
`quantity` to be an integer `>= 1` before the service is invoked. -/
def purchaseRoute (db : DB) (userId ticketId : String) (quantity : Int)
    (env : PurchaseEnv) : DB × List Effect × Except String PurchaseOk :=
  if quantity < 1 then (db, [], .error "Validation error")
  else purchaseTickets db userId ticketId quantity env

/-! ## Ticket Lifecycle State Machine (`validateTicket`) -/

/-- `OrderStatus` as interpolated into the error template string. -/
def orderStatusText : OrderStatus → String
  | .PENDING => "PENDING"
  | .PAID => "PAID"
  | .CANCELLED => "CANCELLED"
  | .REFUNDED => "REFUNDED"

/-- Successful result of `validateTicket`: gate-display details. -/
structure ValidationOk where
  valid : Bool
  event : Option Event
  ticket : Option Ticket
  attendee : Option User
deriving DecidableEq, Repr

/-- The gate-display payload: `event` from the order's `eventId`, `ticket`
from the order's first order item matching the scanned `ticketId`, `attendee`
from the order's `userId` (all read before any status update). -/
def validationResult (db : DB) (order : Order) (ticketId : String) : ValidationOk :=
  { valid := true
    event := findEvent db order.eventId
    ticket :=
      ((db.orderItems.filter fun oi =>
          oi.orderId == order.id && oi.ticketId == ticketId).head?).bind
        fun oi => findTicket db oi.ticketId
    attendee := findUser db order.userId }

/-- `validateTicket(qrData)` from the tickets service: decode the payload,
require the order to exist and be `PAID`, reject a `USED` ticket purchase,
mark a found ticket purchase `USED`, and return gate-display details.  When
no `TicketPurchase` row matches `(orderId, ticketId)` the update is skipped
and validation still succeeds. -/
def validateTicket (db : DB) (qrData : String) : DB × Except String ValidationOk :=
  match qrDecode qrData with
  | none => (db, .error "Invalid QR data format")
  | some parsed =>
    if parsed.ticketId = "" ∨ parsed.orderId = "" then
      (db, .error "QR data missing required fields")
    else
      match findOrder db parsed.orderId with
      | none => (db, .error "Order not found – invalid QR code")
      | some order =>
        if order.status ≠ .PAID then
          (db, .error ("Ticket invalid – order status is " ++ orderStatusText order.status))
        else
          match findTicketPurchase db parsed.orderId parsed.ticketId with
          | some tp =>
            if tp.status = .USED then
              (db, .error "Ticket already used")
            else
              ({ db with
                  ticketPurchases := db.ticketPurchases.map fun p =>
                    if p.id == tp.id then { p with status := .USED } else p },
               .ok (validationResult db order parsed.ticketId))
          | none => (db, .ok (validationResult db order parsed.ticketId))

/-! ## Refund review (`reviewRefundRequest`, admin service) -/

/-- `reviewRefundRequest(requestId, adminId, status)`: mark the pending
request reviewed; when approved, set the order's status to `REFUNDED` and
set every `TicketPurchase` under the order to `REFUNDED` (an unconditional
`updateMany` on `{ orderId }`). -/
def reviewRefundRequest (db : DB) (requestId adminId : String)
    (decision : ReviewDecision) : DB × Except String String :=
  match findRefundRequest db requestId with
  | none => (db, .error "Refund request not found")
  | some req =>
    if req.status ≠ .PENDING then
      (db, .error "Refund request has already been reviewed")
    else
      let db1 : DB :=
        { db with
          refundRequests := db.refundRequests.map fun r =>
            if r.id == requestId then
              { r with
                status := match decision with
                  | .APPROVED => .APPROVED
                  | .REJECTED => .REJECTED
                reviewedBy := some adminId }
            else r }
      match decision with
      | .APPROVED =>
        let db2 : DB :=
          { db1 with
            orders := db1.orders.map fun o =>
              if o.id == req.orderId then { o with status := .REFUNDED } else o }
        let db3 : DB :=
          { db2 with
            ticketPurchases := db2.ticketPurchases.map fun p =>
              if p.orderId == req.orderId then { p with status := .REFUNDED } else p }
        (db3, .ok "Refund request approved successfully")
      | .REJECTED => (db1, .ok "Refund request rejected successfully")

/-! ## Promo/Flash-Sale Redemption Counter -/

/-- Discount terms returned by `validatePromoCode`. -/
structure DiscountTerms where
  flashSaleId : String
  discountPercent : Option ℚ
  discountAmount : Option ℚ
  name : String
deriving DecidableEq, Repr

/-- The `findFirst` filter of `validatePromoCode`: event, promo code,
active flag and time window. -/
def flashSaleMatches (s : FlashSale) (eventId promoCode : String) (now : Int) : Bool :=
  s.eventId == eventId && s.promoCode == some promoCode && s.isActive &&
    decide (s.startTime ≤ now) && decide (now ≤ s.endTime)

/-- JavaScript truthiness of `flashSale.maxRedemptions`: the cap check is
skipped when the column is `NULL` or `0`. -/
def capReached (s : FlashSale) : Bool :=
  match s.maxRedemptions with
  | none => false
  | some m => if m = 0 then false else decide (m ≤ s.currentRedemptions)

/-- `validatePromoCode(eventId, promoCode, ticketCategory)`: find an active
matching sale, reject when the redemption cap is reached, reject when the
sale's category list is nonempty and does not contain the requested
category. -/
def validatePromoCode (db : DB) (now : Int) (eventId promoCode ticketCategory : String) :
    Except String DiscountTerms :=
  match db.flashSales.find? (fun s => flashSaleMatches s eventId promoCode now) with
  | none => .error "Invalid or expired promo code"
  | some s =>
    if capReached s then
      .error "Promo code has reached its maximum usage limit"
    else if s.ticketCategories ≠ [] ∧ ticketCategory ∉ s.ticketCategories then
      .error "This promo code does not apply to the selected ticket category"
    else
      .ok ⟨s.id, s.discountPercent, s.discountAmount, s.name⟩

/-- `redeemFlashSale(flashSaleId)`: `prisma.flashSale.update` with
`currentRedemptions: { increment: 1 }` — an unconditional increment;
Prisma raises when no row has the id. -/
def redeemFlashSale (db : DB) (flashSaleId : String) : DB × Except String Unit :=
  if db.flashSales.any (fun s => s.id == flashSaleId) then
    ({ db with
        flashSales := db.flashSales.map fun s =>
          if s.id == flashSaleId then
            { s with currentRedemptions := s.currentRedemptions + 1 }
          else s },
     .ok ())
  else
    (db, .error "Record to update not found")

/-! ## Replay Guard (`walletLogin`) -/

/-- A Redis key with its expiry instant (`SET key 1 EX 600`). -/
structure NonceEntry where
  key : String
  expiresAt : Int
deriving DecidableEq, Repr

/-- The replay-guard state: the Upstash Redis nonce keys. -/
structure AuthState where
  nonces : List NonceEntry
deriving DecidableEq, Repr

/-- Input of `walletLogin`. -/
structure WalletLoginInput where
  address : String
  signature : String
  message : String
  nonce : String
  timestamp : Int
deriving DecidableEq, Repr

/-- `address.toLowerCase()`. -/
def lowerStr (s : String) : String := ⟨s.data.map Char.toLower⟩

/-- The Redis key `wallet_nonce:${nonce}`. -/
def nonceKey (nonce : String) : String := "wallet_nonce:" ++ nonce

/-- `redis.exists(key) > 0`: the key is present and not yet expired. -/
def nonceExists (st : AuthState) (key : String) (now : Int) : Bool :=
  st.nonces.any fun e => e.key == key && decide (now < e.expiresAt)

/-- The exact expected message format. -/
def expectedMessage (address nonce : String) (timestamp : Int) : String :=
  "Sign this message to authenticate with MobiTickets.\n\nAddress: " ++
    lowerStr address ++ "\nNonce: " ++ nonce ++ "\nTimestamp: " ++ toString timestamp

/-- `walletLogin`: reject a timestamp older/newer than 300 seconds, reject a
nonce already consumed (within TTL), require the exact message format, verify
the signature through the `recover` oracle (`ethers.verifyMessage`, which may
throw), then mark the nonce consumed with a 600-second TTL and log the user
in (the user find-or-create and token issuance are summarised by the returned
wallet email). -/
def walletLogin (st : AuthState) (inp : WalletLoginInput) (now : Int)
    (recover : String → String → Option String) : Except String (AuthState × String) :=
  if 300 < (now - inp.timestamp).natAbs then
    .error "Signature expired. Please try again."
  else if nonceExists st (nonceKey inp.nonce) now then
    .error "Nonce already used. Potential replay attack detected."
  else if inp.message ≠ expectedMessage inp.address inp.nonce inp.timestamp then
    .error "Invalid message format"
  else
    match recover inp.message inp.signature with
    | none => .error "Wallet verification failed: Unknown error"
    | some recovered =>
      if lowerStr recovered ≠ lowerStr inp.address then
        .error "Wallet verification failed: Invalid signature"
      else
        .ok ({ st with nonces := ⟨nonceKey inp.nonce, now + 600⟩ :: st.nonces },
             lowerStr inp.address ++ "@wallet")

/-! ## Invariants -/

/-- The inventory invariant: `0 <= availableQuantity <= totalQuantity`. -/
def TicketInvariant (db : DB) : Prop :=
  ∀ t ∈ db.tickets, 0 ≤ t.availableQuantity ∧ t.availableQuantity ≤ t.totalQuantity

/-- The flash-sale cap invariant: `currentRedemptions <= maxRedemptions`
whenever `maxRedemptions` is set. -/
def FlashSaleInvariant (db : DB) : Prop :=
  ∀ s ∈ db.flashSales, ∀ m, s.maxRedemptions = some m → s.currentRedemptions ≤ m

instance (db : DB) : Decidable (TicketInvariant db) := by
  unfold TicketInvariant; infer_instance

instance (db : DB) : Decidable (FlashSaleInvariant db) := by
  unfold FlashSaleInvariant
  have : ∀ s : FlashSale,
      Decidable (∀ m, s.maxRedemptions = some m → s.currentRedemptions ≤ m) := by
    intro s
    cases hm : s.maxRedemptions with
    | none => exact .isTrue (by intro m h; simp at h)
    | some m =>
      by_cases hc : s.currentRedemptions ≤ m
      · exact .isTrue (by intro m' h'; cases h'; exact hc)
      · exact .isFalse (by intro h; exact hc (h m rfl))
  infer_instance

/-! ## Supporting lemmas -/

theorem parseLit_append (l s : List Char) : parseLit l (l ++ s) = some s := by
  induction l with
  | nil => rfl
  | cons c cs ih => simpa [parseLit] using ih

theorem parseStrVal_append (v : List Char) (h : '"' ∉ v) :
    ∀ r : List Char, parseStrVal (v ++ '"' :: r) = some (v, r) := by
  induction v with
  | nil => intro r; simp [parseStrVal]
  | cons c cs ih =>
    intro r
    have hc : ¬ c = '"' := by
      intro hc; exact h (by simp [hc])
    have hcs : '"' ∉ cs := fun hm => h (List.mem_cons_of_mem _ hm)
    simp [parseStrVal, hc, ih hcs r]

/-- The credential codec round trip: the payload `generateTicketQR` encodes
is recovered exactly by the parse in `validateTicket`, provided the fields
contain no `"` (always true of the UUIDs and ISO timestamps involved). -/
theorem qrDecode_qrEncode (p : QRPayload)
    (h1 : quoteFree p.ticketId) (h2 : quoteFree p.orderId) (h3 : quoteFree p.timestamp) :
    qrDecode (qrEncode p) = some p := by
  obtain ⟨t, o, ts⟩ := p
  simp only [quoteFree] at h1 h2 h3
  have hdata : (qrEncode ⟨t, o, ts⟩).data =
      ("\x7b\"ticketId\":\"" : String).data ++
        (t.data ++ ('"' :: ((",\"orderId\":\"" : String).data ++
          (o.data ++ ('"' :: ((",\"timestamp\":\"" : String).data ++
            (ts.data ++ ('"' :: ['\x7d'])))))))) := by
    have e2 : ("\",\"orderId\":\"" : String).data =
        '"' :: (",\"orderId\":\"" : String).data := rfl
    have e3 : ("\",\"timestamp\":\"" : String).data =
        '"' :: (",\"timestamp\":\"" : String).data := rfl
    have e4 : ("\"\x7d" : String).data = '"' :: ['\x7d'] := rfl
    simp [qrEncode, String.data_append, e2, e3, e4]
  unfold qrDecode
  rw [hdata, parseLit_append]
  simp only [parseStrVal_append t.data h1, parseLit_append, parseStrVal_append o.data h2,
    parseStrVal_append ts.data h3]
  simp

/-- `find?` after a `map` that rewrites rows without changing whether the
row matches the predicate: the first match is the image of the old first
match. -/
theorem find_map_pres {α : Type} (q : α → Bool) (f : α → α)
    (hf : ∀ a, q (f a) = q a) :
    ∀ {l : List α} {x : α}, l.find? q = some x → (l.map f).find? q = some (f x) := by
  intro l
  induction l with
  | nil => intro x h; simp [List.find?] at h
  | cons a as ih =>
    intro x h
    by_cases hq : q a = true
    · rw [List.find?_cons_of_pos _ hq] at h
      cases h
      rw [List.map_cons, List.find?_cons_of_pos _ (by rw [hf]; exact hq)]
    · rw [List.find?_cons_of_neg _ hq] at h
      rw [List.map_cons, List.find?_cons_of_neg _ (by rw [hf]; exact hq)]
      exact ih h

/-- `validateTicket` never touches the `tickets` table. -/
theorem validateTicket_tickets_eq (db : DB) (cred : String) :
    ((validateTicket db cred).1).tickets = db.tickets := by
  unfold validateTicket
  repeat' split
  all_goals rfl

/-- `reviewRefundRequest` never touches the `tickets` table. -/
theorem reviewRefundRequest_tickets_eq (db : DB) (rid aid : String) (d : ReviewDecision) :
    ((reviewRefundRequest db rid aid d).1).tickets = db.tickets := by
  unfold reviewRefundRequest
  repeat' split
  all_goals rfl

/-- `redeemFlashSale` never touches the `tickets` table. -/
theorem redeemFlashSale_tickets_eq (db : DB) (fid : String) :
    ((redeemFlashSale db fid).1).tickets = db.tickets := by
  unfold redeemFlashSale
  split
  all_goals rfl

/-- When the ticket category is missing or short on inventory the
transaction raises before doing anything: the database is unchanged and no
job was enqueued. -/
theorem purchaseTickets_insufficient (db : DB) (uid tid : String) (q : Int)
    (env : PurchaseEnv) (t : Ticket)
    (hft : findTicket db tid = some t) (hlt : t.availableQuantity < q) :
    purchaseTickets db uid tid q env = (db, [], .error "Insufficient tickets available") := by
  simp [purchaseTickets, purchaseTicketsTx, hft, hlt]

/-- The committed state and result of a successful purchase: inventory
decremented, a `PENDING` order and one order item prepended, and the QR
payload issued over the purchased ticket and the new order id. -/
theorem purchaseTickets_ok (db : DB) (uid tid : String) (q : Int) (env : PurchaseEnv)
    (t : Ticket) (hft : findTicket db tid = some t) (hlt : ¬ t.availableQuantity < q)
    (he : env.emailOk = true) (hn : env.nftOk = true) :
    ∃ effs : List Effect,
      purchaseTickets db uid tid q env =
        ({ db with
            tickets := db.tickets.map fun t' =>
              if t'.id == tid then { t' with availableQuantity := t'.availableQuantity - q }
              else t'
            orders := ⟨env.newOrderId, uid, t.eventId, t.price * (q : ℚ), .PENDING⟩ :: db.orders
            orderItems := ⟨env.newItemId, env.newOrderId, tid, q, t.price⟩ :: db.orderItems },
         effs,
         .ok ⟨⟨env.newOrderId, uid, t.eventId, t.price * (q : ℚ), .PENDING⟩,
              qrEncode ⟨tid, env.newOrderId, env.nowIso⟩⟩) := by
  cases hfu : db.users.find? (fun u => u.id == uid) with
  | none =>
    refine ⟨[Effect.nftJob tid], ?_⟩
    simp [purchaseTickets, purchaseTicketsTx, hft, hlt, he, hn, findUser, hfu]
  | some u =>
    refine ⟨[Effect.emailJob u.email env.newOrderId, Effect.nftJob tid], ?_⟩
    simp [purchaseTickets, purchaseTicketsTx, hft, hlt, he, hn, findUser, hfu]

/-- `purchaseTickets` either leaves the database untouched (any raise rolls
the transaction back) or commits exactly the decrement + order + order item
of a successful purchase. -/
theorem purchaseTickets_fst (db : DB) (uid tid : String) (q : Int) (env : PurchaseEnv) :
    (purchaseTickets db uid tid q env).1 = db ∨
    ∃ t, findTicket db tid = some t ∧ ¬ t.availableQuantity < q ∧
      (purchaseTickets db uid tid q env).1 =
        { db with
            tickets := db.tickets.map fun t' =>
              if t'.id == tid then { t' with availableQuantity := t'.availableQuantity - q }
              else t'
            orders := ⟨env.newOrderId, uid, t.eventId, t.price * (q : ℚ), .PENDING⟩ :: db.orders
            orderItems := ⟨env.newItemId, env.newOrderId, tid, q, t.price⟩ :: db.orderItems } := by
  cases hft : findTicket db tid with
  | none => left; simp [purchaseTickets, purchaseTicketsTx, hft]
  | some t =>
    by_cases hlt : t.availableQuantity < q
    · left; simp [purchaseTickets_insufficient db uid tid q env t hft hlt]
    · cases hfu : db.users.find? (fun u => u.id == uid) with
      | none =>
        cases hn : env.nftOk with
        | false =>
          left; simp [purchaseTickets, purchaseTicketsTx, hft, hlt, findUser, hfu, hn]
        | true =>
          right
          exact ⟨t, rfl, hlt, by
            simp [purchaseTickets, purchaseTicketsTx, hft, hlt, findUser, hfu, hn]⟩
      | some u =>
        cases he : env.emailOk with
        | false =>
          left; simp [purchaseTickets, purchaseTicketsTx, hft, hlt, findUser, hfu, he]
        | true =>
          cases hn : env.nftOk with
          | false =>
            left; simp [purchaseTickets, purchaseTicketsTx, hft, hlt, findUser, hfu, he, hn]
          | true =>
            right
            exact ⟨t, rfl, hlt, by
              simp [purchaseTickets, purchaseTicketsTx, hft, hlt, findUser, hfu, he, hn]⟩

/-! ## Claim theorems -/

/-- C4: when the category exists but `availableQuantity < quantity`, the
purchase fails with the insufficient-inventory error and nothing changes:
the database (hence `availableQuantity`, the orders and the order items) is
exactly as before and no side-effect job was enqueued. -/
theorem purchase_insufficient_spec (db : DB) (uid tid : String) (q : Int)
    (env : PurchaseEnv) (t : Ticket)
    (hft : findTicket db tid = some t) (hlt : t.availableQuantity < q) :
    purchaseTickets db uid tid q env = (db, [], .error "Insufficient tickets available") ∧
    findTicket (purchaseTickets db uid tid q env).1 tid = some t := by
  have h := purchaseTickets_insufficient db uid tid q env t hft hlt
  exact ⟨h, by rw [h]; exact hft⟩

def ticketC4 : Ticket := ⟨"t1", "e1", "Regular", "REGULAR", 50, 100, 1, 10, none, none⟩

def dbC4 : DB := ⟨[ticketC4], [], [], [], [], [], [], []⟩

theorem purchase_insufficient_spec_witness :
    findTicket dbC4 "t1" = some ticketC4 ∧ ticketC4.availableQuantity < 2 ∧
    (purchaseTickets dbC4 "u1" "t1" 2 ⟨"o1", "i1", "ts", true, true⟩ =
        (dbC4, [], .error "Insufficient tickets available") ∧
      findTicket (purchaseTickets dbC4 "u1" "t1" 2 ⟨"o1", "i1", "ts", true, true⟩).1 "t1" =
        some ticketC4) :=
  ⟨by decide, by decide,
    purchase_insufficient_spec dbC4 "u1" "t1" 2 ⟨"o1", "i1", "ts", true, true⟩ ticketC4
      (by decide) (by decide)⟩

/-- C3: a purchase of an existing category with sufficient inventory (and
working job queues) succeeds: `availableQuantity` drops by exactly
`quantity`, the created order is `PENDING` with
`totalAmount = price * quantity`, the created order item snapshots
`priceAtTime` as the category price at purchase time, and the issued
credential decodes back to the same `ticketId` and the new order's id. -/
theorem purchase_success_spec (db : DB) (uid tid : String) (q : Int) (env : PurchaseEnv)
    (t : Ticket) (hft : findTicket db tid = some t) (hlt : ¬ t.availableQuantity < q)
    (he : env.emailOk = true) (hn : env.nftOk = true)
    (hqf1 : quoteFree tid) (hqf2 : quoteFree env.newOrderId) (hqf3 : quoteFree env.nowIso) :
    ∃ effs r, purchaseTickets db uid tid q env = ((purchaseTickets db uid tid q env).1, effs, .ok r) ∧
      r.order = ⟨env.newOrderId, uid, t.eventId, t.price * (q : ℚ), .PENDING⟩ ∧
      r.order.status = .PENDING ∧
      r.order.totalAmount = t.price * (q : ℚ) ∧
      findTicket (purchaseTickets db uid tid q env).1 tid =
        some { t with availableQuantity := t.availableQuantity - q } ∧
      (purchaseTickets db uid tid q env).1.orderItems =
        ⟨env.newItemId, env.newOrderId, tid, q, t.price⟩ :: db.orderItems ∧
      (purchaseTickets db uid tid q env).1.orders = r.order :: db.orders ∧
      qrDecode r.qrCode = some ⟨tid, r.order.id, env.nowIso⟩ := by
  obtain ⟨effs, heq⟩ := purchaseTickets_ok db uid tid q env t hft hlt he hn
  have hft2 : db.tickets.find? (fun t' => t'.id == tid) = some t := hft
  have htid : (t.id == tid) = true := by
    have h := List.find?_some hft2
    simpa using h
  refine ⟨effs, ⟨⟨env.newOrderId, uid, t.eventId, t.price * (q : ℚ), .PENDING⟩,
    qrEncode ⟨tid, env.newOrderId, env.nowIso⟩⟩, ?_, rfl, rfl, rfl, ?_, ?_, ?_, ?_⟩
  · rw [heq]
  · rw [heq]
    unfold findTicket
    have := find_map_pres (fun t' : Ticket => t'.id == tid)
      (fun t' => if t'.id == tid then { t' with availableQuantity := t'.availableQuantity - q }
        else t')
      (fun a => by by_cases h : (a.id == tid) = true <;> simp [h]) hft2
    simpa [htid] using this
  · rw [heq]
  · rw [heq]
  · exact qrDecode_qrEncode ⟨tid, env.newOrderId, env.nowIso⟩ hqf1 hqf2 hqf3

def ticketC3 : Ticket := ⟨"t1", "e1", "Regular", "REGULAR", 50, 100, 100, 10, none, none⟩

def dbC3 : DB :=
  ⟨[ticketC3], [], [], [], [⟨"u1", "alice@mobi.example", "Alice"⟩], [⟨"e1", "Concert"⟩], [], []⟩

def envC3 : PurchaseEnv := ⟨"order-77", "item-77", "2026-10-11T00:00:00.000Z", true, true⟩

theorem purchase_success_spec_witness :
    findTicket dbC3 "t1" = some ticketC3 ∧ ¬ ticketC3.availableQuantity < 3 ∧
    ∃ effs r, purchaseTickets dbC3 "u1" "t1" 3 envC3 =
        ((purchaseTickets dbC3 "u1" "t1" 3 envC3).1, effs, .ok r) ∧
      r.order = ⟨envC3.newOrderId, "u1", ticketC3.eventId,
        ticketC3.price * ((3 : Int) : ℚ), .PENDING⟩ ∧
      r.order.status = .PENDING ∧
      r.order.totalAmount = ticketC3.price * ((3 : Int) : ℚ) ∧
      findTicket (purchaseTickets dbC3 "u1" "t1" 3 envC3).1 "t1" =
        some { ticketC3 with availableQuantity := ticketC3.availableQuantity - 3 } ∧
      (purchaseTickets dbC3 "u1" "t1" 3 envC3).1.orderItems =
        ⟨envC3.newItemId, envC3.newOrderId, "t1", 3, ticketC3.price⟩ :: dbC3.orderItems ∧
      (purchaseTickets dbC3 "u1" "t1" 3 envC3).1.orders = r.order :: dbC3.orders ∧
      qrDecode r.qrCode = some ⟨"t1", r.order.id, envC3.nowIso⟩ :=
  ⟨by decide, by decide,
    purchase_success_spec dbC3 "u1" "t1" 3 envC3 ticketC3 (by decide) (by decide) rfl rfl
      (by decide) (by decide) (by decide)⟩

/-- C2: the inventory invariant `0 <= availableQuantity <= totalQuantity`
is preserved by every core operation (assuming the primary-key uniqueness
of ticket ids the store enforces): the purchase route — whose zod schema
admits only `quantity >= 1` — checks `availableQuantity >= quantity` and
decrements inside the same transaction, so availability never goes
negative, and no operation ever increments `availableQuantity`. -/
theorem inventory_invariant_preserved (db : DB)
    (hinv : TicketInvariant db) (hnd : (db.tickets.map Ticket.id).Nodup) :
    (∀ uid tid q env, TicketInvariant (purchaseRoute db uid tid q env).1) ∧
    (∀ cred, TicketInvariant (validateTicket db cred).1) ∧
    (∀ rid aid d, TicketInvariant (reviewRefundRequest db rid aid d).1) ∧
    (∀ fid, TicketInvariant (redeemFlashSale db fid).1) := by
  refine ⟨?_, ?_, ?_, ?_⟩
  · intro uid tid q env
    unfold purchaseRoute
    by_cases hq1 : q < 1
    · simpa [hq1] using hinv
    · rw [if_neg hq1]
      rcases purchaseTickets_fst db uid tid q env with h | ⟨t, hft, hlt, h⟩
      · rw [h]; exact hinv
      · rw [h]
        intro t' ht'
        rcases List.mem_map.mp ht' with ⟨t0, ht0, rfl⟩
        by_cases hid : (t0.id == tid) = true
        · have hft2 : db.tickets.find? (fun t' => t'.id == tid) = some t := hft
          have htmem := List.mem_of_find?_eq_some hft2
          have ht0t : t0 = t := by
            apply List.inj_on_of_nodup_map hnd ht0 htmem
            have h1 : t0.id = tid := by simpa using hid
            have h2 : t.id = tid := by simpa using List.find?_some hft2
            simp [h1, h2]
          obtain ⟨ha, hb⟩ := hinv t0 ht0
          have hqt : q ≤ t0.availableQuantity := by rw [ht0t]; omega
          simp only [hid, if_true]
          constructor <;> simp <;> omega
        · simp only [hid, if_false]
          exact hinv t0 ht0
  · intro cred
    intro t ht
    rw [validateTicket_tickets_eq] at ht
    exact hinv t ht
  · intro rid aid d
    intro t ht
    rw [reviewRefundRequest_tickets_eq] at ht
    exact hinv t ht
  · intro fid
    intro t ht
    rw [redeemFlashSale_tickets_eq] at ht
    exact hinv t ht

def dbC2 : DB :=
  ⟨[⟨"t1", "e1", "Regular", "REGULAR", 50, 100, 40, 10, none, none⟩,
    ⟨"t2", "e1", "VIP", "VIP", 200, 20, 0, 4, none, none⟩],
   [], [], [], [], [], [], []⟩

theorem inventory_invariant_preserved_witness :
    TicketInvariant dbC2 ∧ (dbC2.tickets.map Ticket.id).Nodup ∧
    TicketInvariant (purchaseRoute dbC2 "u1" "t1" 5 ⟨"o1", "i1", "ts", true, true⟩).1 ∧
    TicketInvariant (validateTicket dbC2 "junk").1 :=
  ⟨by decide, by decide,
    (inventory_invariant_preserved dbC2 (by decide) (by decide)).1 "u1" "t1" 5
      ⟨"o1", "i1", "ts", true, true⟩,
    (inventory_invariant_preserved dbC2 (by decide) (by decide)).2.1 "junk"⟩

/-- The decremented category as seen through `findTicket` after a
successful purchase. -/
theorem findTicket_after_purchase (db : DB) (uid tid : String) (q : Int)
    (env : PurchaseEnv) (t : Ticket)
    (hft : findTicket db tid = some t) (hlt : ¬ t.availableQuantity < q) :
    findTicket
        ({ db with
            tickets := db.tickets.map fun t' =>
              if t'.id == tid then { t' with availableQuantity := t'.availableQuantity - q }
              else t' } : DB) tid =
      some { t with availableQuantity := t.availableQuantity - q } := by
  have hft2 : db.tickets.find? (fun t' => t'.id == tid) = some t := hft
  have htid : (t.id == tid) = true := by
    have h := List.find?_some hft2
    simpa using h
  unfold findTicket
  have := find_map_pres (fun t' : Ticket => t'.id == tid)
    (fun t' => if t'.id == tid then { t' with availableQuantity := t'.availableQuantity - q }
      else t')
    (fun a => by by_cases h : (a.id == tid) = true <;> simp [h]) hft2
  simpa [htid] using this

/-- C10: a successful purchase creates one `Order` and exactly one
`OrderItem` but writes no `TicketPurchase` row (no code path in the
repository ever creates one), so the issued credential has no Ticket
Lifecycle State Machine instance backing it: `validateTicket`'s
`findFirst` on `(orderId, ticketId)` over the committed state returns
nothing. -/
theorem purchase_no_ticketpurchase_spec (db : DB) (uid tid : String) (q : Int)
    (env : PurchaseEnv) (t : Ticket)
    (hft : findTicket db tid = some t) (hlt : ¬ t.availableQuantity < q)
    (he : env.emailOk = true) (hn : env.nftOk = true)
    (hfresh : findTicketPurchase db env.newOrderId tid = none) :
    ∃ effs r, purchaseTickets db uid tid q env =
        ((purchaseTickets db uid tid q env).1, effs, .ok r) ∧
      (purchaseTickets db uid tid q env).1.ticketPurchases = db.ticketPurchases ∧
      (purchaseTickets db uid tid q env).1.orders = r.order :: db.orders ∧
      (purchaseTickets db uid tid q env).1.orderItems =
        ⟨env.newItemId, env.newOrderId, tid, q, t.price⟩ :: db.orderItems ∧
      r.order.id = env.newOrderId ∧
      findTicketPurchase (purchaseTickets db uid tid q env).1 r.order.id tid = none := by
  obtain ⟨effs, heq⟩ := purchaseTickets_ok db uid tid q env t hft hlt he hn
  refine ⟨effs, ⟨⟨env.newOrderId, uid, t.eventId, t.price * (q : ℚ), .PENDING⟩,
    qrEncode ⟨tid, env.newOrderId, env.nowIso⟩⟩, ?_, ?_, ?_, ?_, rfl, ?_⟩
  · rw [heq]
  · rw [heq]
  · rw [heq]
  · rw [heq]
  · rw [heq]; exact hfresh

def ticketC10 : Ticket := ⟨"t1", "e1", "Regular", "REGULAR", 50, 100, 40, 10, none, none⟩

def dbC10 : DB :=
  ⟨[ticketC10], [⟨"o0", "u2", "e1", 50, .PAID⟩], [⟨"i0", "o0", "t1", 1, 50⟩],
   [⟨"p0", "u2", "o0", "t1", "e1", .ACTIVE⟩],
   [⟨"u1", "bob@mobi.example", "Bob"⟩], [⟨"e1", "Concert"⟩], [], []⟩

theorem purchase_no_ticketpurchase_spec_witness :
    findTicket dbC10 "t1" = some ticketC10 ∧
    findTicketPurchase dbC10 "order-9" "t1" = none ∧
    ∃ effs r, purchaseTickets dbC10 "u1" "t1" 2 ⟨"order-9", "item-9", "ts", true, true⟩ =
        ((purchaseTickets dbC10 "u1" "t1" 2 ⟨"order-9", "item-9", "ts", true, true⟩).1,
         effs, .ok r) ∧
      (purchaseTickets dbC10 "u1" "t1" 2
          ⟨"order-9", "item-9", "ts", true, true⟩).1.ticketPurchases =
        dbC10.ticketPurchases ∧
      (purchaseTickets dbC10 "u1" "t1" 2 ⟨"order-9", "item-9", "ts", true, true⟩).1.orders =
        r.order :: dbC10.orders ∧
      (purchaseTickets dbC10 "u1" "t1" 2
          ⟨"order-9", "item-9", "ts", true, true⟩).1.orderItems =
        ⟨"item-9", "order-9", "t1", 2, ticketC10.price⟩ :: dbC10.orderItems ∧
      r.order.id = "order-9" ∧
      findTicketPurchase (purchaseTickets dbC10 "u1" "t1" 2
          ⟨"order-9", "item-9", "ts", true, true⟩).1 r.order.id "t1" = none :=
  ⟨by decide, by decide,
    purchase_no_ticketpurchase_spec dbC10 "u1" "t1" 2 ⟨"order-9", "item-9", "ts", true, true⟩
      ticketC10 (by decide) (by decide) rfl rfl (by decide)⟩

/-- C7 (amended): the confirmation-email and NFT enqueues happen inside the
purchase transaction, before commit; a failing enqueue aborts the
transaction and rolls the purchase back — the inventory decrement, the
`Order` and the `OrderItem` are all undone — while any job already
enqueued (here the confirmation email) stays dispatched even though the
purchase never committed. -/
theorem purchase_side_effect_spec (db : DB) (uid tid : String) (q : Int)
    (env : PurchaseEnv) (t : Ticket) (u : User)
    (hft : findTicket db tid = some t) (hlt : ¬ t.availableQuantity < q)
    (hu : findUser db uid = some u)
    (he : env.emailOk = true) (hn : env.nftOk = false) :
    purchaseTickets db uid tid q env =
      (db, [Effect.emailJob u.email env.newOrderId], .error "queue unavailable") := by
  have hu2 : db.users.find? (fun x => x.id == uid) = some u := hu
  simp [purchaseTickets, purchaseTicketsTx, hft, hlt, findUser, hu2, he, hn]

def ticketC7 : Ticket := ⟨"t1", "e1", "Regular", "REGULAR", 50, 100, 40, 10, none, none⟩

def dbC7 : DB :=
  ⟨[ticketC7], [], [], [], [⟨"u1", "bob@mobi.example", "Bob"⟩], [⟨"e1", "Concert"⟩], [], []⟩

/-- C7 fails on the code: with inventory available and the user present,
an NFT-enqueue failure makes the whole purchase roll back (final state is
the original database: no decrement, no order) even though the
confirmation-email job was already dispatched — so side effects are not
dispatched "only after commit", and an enqueue failure does roll back the
purchase. -/
theorem purchase_side_effect_cex :
    purchaseTickets dbC7 "u1" "t1" 1 ⟨"o9", "i9", "ts", true, false⟩ =
      (dbC7, [Effect.emailJob "bob@mobi.example" "o9"], .error "queue unavailable") ∧
    (purchaseTickets dbC7 "u1" "t1" 1 ⟨"o9", "i9", "ts", true, false⟩).1.orders = [] ∧
    findTicket (purchaseTickets dbC7 "u1" "t1" 1 ⟨"o9", "i9", "ts", true, false⟩).1 "t1" =
      some ticketC7 := by
  decide

theorem purchase_side_effect_spec_witness :
    findTicket dbC7 "t1" = some ticketC7 ∧ findUser dbC7 "u1" = some ⟨"u1", "bob@mobi.example", "Bob"⟩ ∧
    purchaseTickets dbC7 "u1" "t1" 1 ⟨"o9", "i9", "ts", true, false⟩ =
      (dbC7, [Effect.emailJob "bob@mobi.example" "o9"], .error "queue unavailable") :=
  ⟨by decide, by decide,
    purchase_side_effect_spec dbC7 "u1" "t1" 1 ⟨"o9", "i9", "ts", true, false⟩ ticketC7
      ⟨"u1", "bob@mobi.example", "Bob"⟩ (by decide) (by decide) (by decide) rfl rfl⟩

/-- C8 (amended): the only preconditions the purchase path enforces are the
zod schema's `quantity >= 1` and the in-transaction availability check;
`maxPerPurchase` and the sales window are never consulted (`purchaseTickets`
does not even take a clock), so a purchase with
`quantity > maxPerPurchase` — and regardless of `salesStartTime` /
`salesEndTime` — succeeds and decrements inventory. -/
theorem purchase_precondition_spec (db : DB) (uid tid : String) (q : Int)
    (env : PurchaseEnv) (t : Ticket)
    (hft : findTicket db tid = some t) (hlt : ¬ t.availableQuantity < q)
    (he : env.emailOk = true) (hn : env.nftOk = true)
    (hmax : t.maxPerPurchase < q) :
    ∃ effs r, purchaseTickets db uid tid q env =
        ((purchaseTickets db uid tid q env).1, effs, .ok r) ∧
      findTicket (purchaseTickets db uid tid q env).1 tid =
        some { t with availableQuantity := t.availableQuantity - q } := by
  obtain ⟨effs, heq⟩ := purchaseTickets_ok db uid tid q env t hft hlt he hn
  refine ⟨effs, ⟨⟨env.newOrderId, uid, t.eventId, t.price * (q : ℚ), .PENDING⟩,
    qrEncode ⟨tid, env.newOrderId, env.nowIso⟩⟩, ?_, ?_⟩
  · rw [heq]
  · rw [heq]
    exact findTicket_after_purchase db uid tid q env t hft hlt

def ticketC8 : Ticket := ⟨"t1", "e1", "Regular", "REGULAR", 50, 10, 10, 2, some 0, some 10⟩

def dbC8 : DB := ⟨[ticketC8], [], [], [], [], [], [], []⟩

def envC8 : PurchaseEnv := ⟨"o8", "i8", "ts", true, true⟩

/-- C8 fails on the code: a category with `maxPerPurchase = 2` and a sales
window of `[0, 10]` accepts a purchase of quantity `5` (through the route,
i.e. past the zod schema) and decrements inventory; no `SalesWindowClosed`
or max-per-purchase rejection exists anywhere in the purchase path. -/
theorem purchase_precondition_cex :
    ticketC8.maxPerPurchase < 5 ∧ ticketC8.salesEndTime = some 10 ∧
    (purchaseRoute dbC8 "u1" "t1" 5 envC8).2.2 =
      .ok ⟨⟨"o8", "u1", "e1", ticketC8.price * ((5 : Int) : ℚ), .PENDING⟩,
           qrEncode ⟨"t1", "o8", "ts"⟩⟩ ∧
    findTicket (purchaseRoute dbC8 "u1" "t1" 5 envC8).1 "t1" =
      some { ticketC8 with availableQuantity := 5 } := by
  obtain ⟨effs, heq⟩ :=
    purchaseTickets_ok dbC8 "u1" "t1" 5 envC8 ticketC8 (by decide) (by decide) rfl rfl
  have hroute : purchaseRoute dbC8 "u1" "t1" 5 envC8 = purchaseTickets dbC8 "u1" "t1" 5 envC8 := by
    unfold purchaseRoute
    rw [if_neg (by decide)]
  refine ⟨by decide, rfl, ?_, ?_⟩
  · rw [hroute, heq]
    rfl
  · rw [hroute, heq]
    have h := findTicket_after_purchase dbC8 "u1" "t1" 5 envC8 ticketC8 (by decide) (by decide)
    exact h

/-- C5 (amended): approving a pending refund request marks the order
`REFUNDED` and unconditionally sets every `TicketPurchase` under the order
to `REFUNDED` — including instances already `USED`.  There is no
`PartiallyUsed` check and the batch never aborts: a used ticket is silently
refunded along with the rest. -/
theorem refund_approval_spec (db : DB) (rid aid : String) (req : RefundRequest)
    (hreq : findRefundRequest db rid = some req) (hpend : req.status = .PENDING) :
    reviewRefundRequest db rid aid .APPROVED =
      ({ db with
          refundRequests := db.refundRequests.map fun r =>
            if r.id == rid then { r with status := .APPROVED, reviewedBy := some aid }
            else r
          orders := db.orders.map fun o =>
            if o.id == req.orderId then { o with status := .REFUNDED } else o
          ticketPurchases := db.ticketPurchases.map fun p =>
            if p.orderId == req.orderId then { p with status := .REFUNDED } else p },
       .ok "Refund request approved successfully") ∧
    ∀ tp ∈ db.ticketPurchases, tp.orderId = req.orderId →
      { tp with status := PurchaseStatus.REFUNDED } ∈
        (reviewRefundRequest db rid aid .APPROVED).1.ticketPurchases := by
  have heq : reviewRefundRequest db rid aid .APPROVED =
      ({ db with
          refundRequests := db.refundRequests.map fun r =>
            if r.id == rid then { r with status := .APPROVED, reviewedBy := some aid }
            else r
          orders := db.orders.map fun o =>
            if o.id == req.orderId then { o with status := .REFUNDED } else o
          ticketPurchases := db.ticketPurchases.map fun p =>
            if p.orderId == req.orderId then { p with status := .REFUNDED } else p },
       .ok "Refund request approved successfully") := by
    simp [reviewRefundRequest, hreq, hpend]
  refine ⟨heq, ?_⟩
  intro tp htp hord
  rw [heq]
  have : ({ tp with status := PurchaseStatus.REFUNDED } : TicketPurchase) =
      (fun p : TicketPurchase =>
        if p.orderId == req.orderId then { p with status := .REFUNDED } else p) tp := by
    simp [hord]
  rw [this]
  exact List.mem_map_of_mem _ htp

def dbC5 : DB :=
  ⟨[], [⟨"o1", "u1", "e1", 100, .PAID⟩], [],
   [⟨"p1", "u1", "o1", "t1", "e1", .USED⟩, ⟨"p2", "u1", "o1", "t1", "e1", .ACTIVE⟩],
   [], [], [⟨"r1", "o1", "u1", 100, .PENDING, none⟩], []⟩

/-- C5 fails on the code: an approved refund over an order one of whose
ticket purchases is already `USED` does not fail with `PartiallyUsed` — it
succeeds, refunds the order, and overwrites the `USED` instance with
`REFUNDED` along with the active one. -/
theorem refund_partially_used_cex :
    (∃ tp ∈ dbC5.ticketPurchases, tp.status = .USED) ∧
    (reviewRefundRequest dbC5 "r1" "admin" .APPROVED).2 =
      .ok "Refund request approved successfully" ∧
    (reviewRefundRequest dbC5 "r1" "admin" .APPROVED).1.ticketPurchases =
      [⟨"p1", "u1", "o1", "t1", "e1", .REFUNDED⟩, ⟨"p2", "u1", "o1", "t1", "e1", .REFUNDED⟩] ∧
    findOrder (reviewRefundRequest dbC5 "r1" "admin" .APPROVED).1 "o1" =
      some ⟨"o1", "u1", "e1", 100, .REFUNDED⟩ := by
  decide

theorem refund_approval_spec_witness :
    findRefundRequest dbC5 "r1" = some ⟨"r1", "o1", "u1", 100, .PENDING, none⟩ ∧
    (reviewRefundRequest dbC5 "r1" "admin" .APPROVED =
      ({ dbC5 with
          refundRequests := dbC5.refundRequests.map fun r =>
            if r.id == "r1" then { r with status := .APPROVED, reviewedBy := some "admin" }
            else r
          orders := dbC5.orders.map fun o =>
            if o.id == "o1" then { o with status := .REFUNDED } else o
          ticketPurchases := dbC5.ticketPurchases.map fun p =>
            if p.orderId == "o1" then { p with status := .REFUNDED } else p },
       .ok "Refund request approved successfully") ∧
      ∀ tp ∈ dbC5.ticketPurchases, tp.orderId = "o1" →
        { tp with status := PurchaseStatus.REFUNDED } ∈
          (reviewRefundRequest dbC5 "r1" "admin" .APPROVED).1.ticketPurchases) :=
  ⟨by decide,
    refund_approval_spec dbC5 "r1" "admin" ⟨"r1", "o1", "u1", 100, .PENDING, none⟩
      (by decide) rfl⟩

/-- `validateTicket` rejects a credential whose `TicketPurchase` row is
already `USED` (the order existing and being `PAID`). -/
theorem validateTicket_already_used (D : DB) (cred : String) (parsed : QRPayload)
    (hdec : qrDecode cred = some parsed) (ht : parsed.ticketId ≠ "") (ho : parsed.orderId ≠ "")
    (order : Order) (hford : findOrder D parsed.orderId = some order)
    (hpaid : order.status = .PAID) (tp' : TicketPurchase)
    (htp : findTicketPurchase D parsed.orderId parsed.ticketId = some tp')
    (hused : tp'.status = .USED) :
    validateTicket D cred = (D, .error "Ticket already used") := by
  simp [validateTicket, hdec, ht, ho, hford, hpaid, htp, hused]

/-- C1 (amended): `validateTicket` fails with the order-not-found error
when no **Order** exists for the decoded `orderId` (the absence of a
`TicketPurchase` row is *not* rejected); fails with the order-status error
when the order is not `PAID`; when a `TicketPurchase` row exists for
`(orderId, ticketId)` it fails with `AlreadyUsed` exactly when that row's
status is `USED`, and otherwise — for *any* non-`USED` status, not only
`ACTIVE` — marks the row `USED` and returns attendee/event/ticket-category
details, after which a second validation of the same credential fails with
`AlreadyUsed`; when no `TicketPurchase` row exists (and the order is
`PAID`), validation succeeds without updating anything. -/
theorem validateTicket_spec (db : DB) (cred : String) (parsed : QRPayload)
    (hdec : qrDecode cred = some parsed)
    (ht : parsed.ticketId ≠ "") (ho : parsed.orderId ≠ "") :
    (findOrder db parsed.orderId = none →
      validateTicket db cred = (db, .error "Order not found – invalid QR code")) ∧
    (∀ order, findOrder db parsed.orderId = some order → order.status ≠ .PAID →
      validateTicket db cred =
        (db, .error ("Ticket invalid – order status is " ++ orderStatusText order.status))) ∧
    (∀ order tp, findOrder db parsed.orderId = some order → order.status = .PAID →
      findTicketPurchase db parsed.orderId parsed.ticketId = some tp →
      tp.status = .USED →
      validateTicket db cred = (db, .error "Ticket already used")) ∧
    (∀ order tp, findOrder db parsed.orderId = some order → order.status = .PAID →
      findTicketPurchase db parsed.orderId parsed.ticketId = some tp →
      tp.status ≠ .USED →
      (validateTicket db cred).2 = .ok (validationResult db order parsed.ticketId) ∧
      findTicketPurchase (validateTicket db cred).1 parsed.orderId parsed.ticketId =
        some { tp with status := .USED } ∧
      validateTicket (validateTicket db cred).1 cred =
        ((validateTicket db cred).1, .error "Ticket already used")) ∧
    (∀ order, findOrder db parsed.orderId = some order → order.status = .PAID →
      findTicketPurchase db parsed.orderId parsed.ticketId = none →
      validateTicket db cred = (db, .ok (validationResult db order parsed.ticketId))) := by
  refine ⟨?_, ?_, ?_, ?_, ?_⟩
  · intro hford
    simp [validateTicket, hdec, ht, ho, hford]
  · intro order hford hst
    simp [validateTicket, hdec, ht, ho, hford, hst]
  · intro order tp hford hpaid htp hused
    simp [validateTicket, hdec, ht, ho, hford, hpaid, htp, hused]
  · intro order tp hford hpaid htp hnu
    have heq : validateTicket db cred =
        ({ db with ticketPurchases := db.ticketPurchases.map fun p =>
            if p.id == tp.id then { p with status := PurchaseStatus.USED } else p },
         .ok (validationResult db order parsed.ticketId)) := by
      simp [validateTicket, hdec, ht, ho, hford, hpaid, htp, hnu]
    have htp' : db.ticketPurchases.find?
        (fun p => p.orderId == parsed.orderId && p.ticketId == parsed.ticketId) = some tp := htp
    have hmap := find_map_pres
      (fun p : TicketPurchase => p.orderId == parsed.orderId && p.ticketId == parsed.ticketId)
      (fun p => if p.id == tp.id then { p with status := PurchaseStatus.USED } else p)
      (fun a => by by_cases h : (a.id == tp.id) = true <;> simp [h]) htp'
    have htp2D : findTicketPurchase
        ({ db with ticketPurchases := db.ticketPurchases.map fun p =>
            if p.id == tp.id then { p with status := PurchaseStatus.USED } else p } : DB)
        parsed.orderId parsed.ticketId = some { tp with status := PurchaseStatus.USED } := by
      simpa [findTicketPurchase] using hmap
    have hfordD : findOrder
        ({ db with ticketPurchases := db.ticketPurchases.map fun p =>
            if p.id == tp.id then { p with status := PurchaseStatus.USED } else p } : DB)
        parsed.orderId = some order := hford
    have hfin := validateTicket_already_used
      ({ db with ticketPurchases := db.ticketPurchases.map fun p =>
          if p.id == tp.id then { p with status := PurchaseStatus.USED } else p } : DB)
      cred parsed hdec ht ho order hfordD hpaid
      ({ tp with status := PurchaseStatus.USED }) htp2D rfl
    refine ⟨by rw [heq], ?_, ?_⟩
    · rw [heq]
      exact htp2D
    · rw [heq]
      exact hfin
  · intro order hford hpaid htp
    simp [validateTicket, hdec, ht, ho, hford, hpaid, htp]

def ticketC1 : Ticket := ⟨"t1", "e1", "Regular", "REGULAR", 50, 100, 99, 10, none, none⟩

def dbC1 : DB :=
  ⟨[ticketC1], [⟨"o1", "u1", "e1", 50, .PAID⟩], [⟨"i1", "o1", "t1", 1, 50⟩], [],
   [⟨"u1", "alice@mobi.example", "Alice"⟩], [⟨"e1", "Concert"⟩], [], []⟩

def credC1 : String := qrEncode ⟨"t1", "o1", "ts"⟩

/-- C1 fails on the code: for a `PAID` order whose credential has **no**
`TicketPurchase` row, `validateTicket` does not fail with a
credential-not-recognized error — it succeeds, changes nothing, and
succeeds again on a second scan of the very same credential instead of
failing with `AlreadyUsed`. -/
theorem validate_no_instance_cex :
    findTicketPurchase dbC1 "o1" "t1" = none ∧
    (validateTicket dbC1 credC1).1 = dbC1 ∧
    (validateTicket dbC1 credC1).2 =
      .ok ⟨true, some ⟨"e1", "Concert"⟩, some ticketC1,
           some ⟨"u1", "alice@mobi.example", "Alice"⟩⟩ ∧
    (validateTicket (validateTicket dbC1 credC1).1 credC1).2 ≠ .error "Ticket already used" ∧
    (validateTicket (validateTicket dbC1 credC1).1 credC1).2 =
      .ok ⟨true, some ⟨"e1", "Concert"⟩, some ticketC1,
           some ⟨"u1", "alice@mobi.example", "Alice"⟩⟩ := by
  decide

def tpC1 : TicketPurchase := ⟨"p1", "u1", "o1", "t1", "e1", .ACTIVE⟩

def dbC1b : DB :=
  ⟨[ticketC1], [⟨"o1", "u1", "e1", 50, .PAID⟩], [⟨"i1", "o1", "t1", 1, 50⟩], [tpC1],
   [⟨"u1", "alice@mobi.example", "Alice"⟩], [⟨"e1", "Concert"⟩], [], []⟩

theorem validateTicket_spec_witness :
    qrDecode credC1 = some ⟨"t1", "o1", "ts"⟩ ∧
    ((findOrder dbC1b "o1" = none →
      validateTicket dbC1b credC1 = (dbC1b, .error "Order not found – invalid QR code")) ∧
    (∀ order, findOrder dbC1b "o1" = some order → order.status ≠ .PAID →
      validateTicket dbC1b credC1 =
        (dbC1b, .error ("Ticket invalid – order status is " ++ orderStatusText order.status))) ∧
    (∀ order tp, findOrder dbC1b "o1" = some order → order.status = .PAID →
      findTicketPurchase dbC1b "o1" "t1" = some tp → tp.status = .USED →
      validateTicket dbC1b credC1 = (dbC1b, .error "Ticket already used")) ∧
    (∀ order tp, findOrder dbC1b "o1" = some order → order.status = .PAID →
      findTicketPurchase dbC1b "o1" "t1" = some tp → tp.status ≠ .USED →
      (validateTicket dbC1b credC1).2 = .ok (validationResult dbC1b order "t1") ∧
      findTicketPurchase (validateTicket dbC1b credC1).1 "o1" "t1" =
        some { tp with status := .USED } ∧
      validateTicket (validateTicket dbC1b credC1).1 credC1 =
        ((validateTicket dbC1b credC1).1, .error "Ticket already used")) ∧
    (∀ order, findOrder dbC1b "o1" = some order → order.status = .PAID →
      findTicketPurchase dbC1b "o1" "t1" = none →
      validateTicket dbC1b credC1 = (dbC1b, .ok (validationResult dbC1b order "t1")))) :=
  ⟨by decide,
    validateTicket_spec dbC1b credC1 ⟨"t1", "o1", "ts"⟩ (by decide) (by decide) (by decide)⟩

/-- C6 (amended): `redeemFlashSale` increments `currentRedemptions`
unconditionally — invoked in a state where `currentRedemptions =
maxRedemptions` it produces `currentRedemptions = maxRedemptions + 1`,
breaking the cap invariant; the cap is enforced only by the separate,
non-atomic `validatePromoCode` call, which rejects a sale whose counter has
reached its (nonzero) cap. -/
theorem flash_redeem_spec (db : DB) (fid : String) (s : FlashSale) (m : Int)
    (hs : db.flashSales.find? (fun x => x.id == fid) = some s)
    (hm : s.maxRedemptions = some m) (hcap : s.currentRedemptions = m) :
    (∃ db', redeemFlashSale db fid = (db', .ok ()) ∧
      db'.flashSales.find? (fun x => x.id == fid) =
        some { s with currentRedemptions := m + 1 } ∧
      ¬ FlashSaleInvariant db') ∧
    (∀ now eid code cat s2,
      db.flashSales.find? (fun x => flashSaleMatches x eid code now) = some s2 →
      capReached s2 = true →
      validatePromoCode db now eid code cat =
        .error "Promo code has reached its maximum usage limit") := by
  have hsid : (s.id == fid) = true := by
    have h := List.find?_some hs
    simpa using h
  have hany : db.flashSales.any (fun x => x.id == fid) = true :=
    List.any_eq_true.mpr ⟨s, List.mem_of_find?_eq_some hs, hsid⟩
  constructor
  · refine ⟨{ db with flashSales := db.flashSales.map fun x =>
        if x.id == fid then { x with currentRedemptions := x.currentRedemptions + 1 }
        else x }, by simp [redeemFlashSale, hany], ?_, ?_⟩
    · have := find_map_pres (fun x : FlashSale => x.id == fid)
        (fun x => if x.id == fid then { x with currentRedemptions := x.currentRedemptions + 1 }
          else x)
        (fun a => by by_cases h : (a.id == fid) = true <;> simp [h]) hs
      simpa [hsid, hcap] using this
    · intro hinv
      have hmem : ({ s with currentRedemptions := m + 1 } : FlashSale) ∈
          (db.flashSales.map fun x =>
            if x.id == fid then { x with currentRedemptions := x.currentRedemptions + 1 }
            else x) := by
        have : ({ s with currentRedemptions := m + 1 } : FlashSale) =
            (fun x : FlashSale =>
              if x.id == fid then { x with currentRedemptions := x.currentRedemptions + 1 }
              else x) s := by
          simp [hsid, hcap]
        rw [this]
        exact List.mem_map_of_mem _ (List.mem_of_find?_eq_some hs)
      have h2 := hinv _ hmem m (by simpa using hm)
      simp at h2
  · intro now eid code cat s2 hfind hcap2
    simp [validatePromoCode, hfind, hcap2]

def saleC6 : FlashSale :=
  ⟨"f1", "e1", "Launch", some "CODE", true, 0, 100, some 5, 5, some 10, none, []⟩

def dbC6 : DB := ⟨[], [], [], [], [], [], [], [saleC6]⟩

/-- C6 fails on the code: redeeming a flash sale whose counter already
equals its cap succeeds and pushes `currentRedemptions` to
`maxRedemptions + 1` — the increment is not conditional on the cap, so the
invariant is broken by a single `redeemFlashSale` call. -/
theorem flash_redeem_cap_cex :
    saleC6.maxRedemptions = some 5 ∧ saleC6.currentRedemptions = 5 ∧
    FlashSaleInvariant dbC6 ∧
    (redeemFlashSale dbC6 "f1").2 = .ok () ∧
    (redeemFlashSale dbC6 "f1").1.flashSales = [{ saleC6 with currentRedemptions := 6 }] ∧
    ¬ FlashSaleInvariant (redeemFlashSale dbC6 "f1").1 := by
  decide

theorem flash_redeem_spec_witness :
    dbC6.flashSales.find? (fun x => x.id == "f1") = some saleC6 ∧
    saleC6.maxRedemptions = some 5 ∧ saleC6.currentRedemptions = 5 ∧
    ((∃ db', redeemFlashSale dbC6 "f1" = (db', .ok ()) ∧
      db'.flashSales.find? (fun x => x.id == "f1") =
        some { saleC6 with currentRedemptions := 5 + 1 } ∧
      ¬ FlashSaleInvariant db') ∧
    (∀ now eid code cat s2,
      dbC6.flashSales.find? (fun x => flashSaleMatches x eid code now) = some s2 →
      capReached s2 = true →
      validatePromoCode dbC6 now eid code cat =
        .error "Promo code has reached its maximum usage limit")) :=
  ⟨by decide, by decide, by decide,
    flash_redeem_spec dbC6 "f1" saleC6 5 (by decide) (by decide) (by decide)⟩

theorem purchase_precondition_spec_witness :
    findTicket dbC8 "t1" = some ticketC8 ∧ ticketC8.maxPerPurchase < 5 ∧
    ∃ effs r, purchaseTickets dbC8 "u1" "t1" 5 ⟨"o8", "i8", "ts", true, true⟩ =
        ((purchaseTickets dbC8 "u1" "t1" 5 ⟨"o8", "i8", "ts", true, true⟩).1, effs, .ok r) ∧
      findTicket (purchaseTickets dbC8 "u1" "t1" 5 ⟨"o8", "i8", "ts", true, true⟩).1 "t1" =
        some { ticketC8 with availableQuantity := ticketC8.availableQuantity - 5 } :=
  ⟨by decide, by decide,
    purchase_precondition_spec dbC8 "u1" "t1" 5 ⟨"o8", "i8", "ts", true, true⟩ ticketC8
      (by decide) (by decide) rfl rfl (by decide)⟩

/-- A successful `walletLogin` stores the consumed nonce with a 600-second
expiry. -/
theorem walletLogin_ok_state (st : AuthState) (inp : WalletLoginInput) (now : Int)
    (recover : String → String → Option String) (st2 : AuthState) (reply : String)
    (h : walletLogin st inp now recover = .ok (st2, reply)) :
    st2 = { st with nonces := ⟨nonceKey inp.nonce, now + 600⟩ :: st.nonces } := by
  unfold walletLogin at h
  by_cases h1 : 300 < (now - inp.timestamp).natAbs
  · rw [if_pos h1] at h
    exact Except.noConfusion h
  · rw [if_neg h1] at h
    by_cases h2 : nonceExists st (nonceKey inp.nonce) now = true
    · rw [if_pos h2] at h
      exact Except.noConfusion h
    · rw [if_neg h2] at h
      by_cases h3 : inp.message = expectedMessage inp.address inp.nonce inp.timestamp
      · rw [if_neg (fun hx => hx h3)] at h
        cases hr : recover inp.message inp.signature with
        | none =>
          rw [hr] at h
          exact Except.noConfusion h
        | some rec =>
          rw [hr] at h
          dsimp only at h
          by_cases h4 : lowerStr rec = lowerStr inp.address
          · rw [if_neg (fun hx => hx h4)] at h
            injection h with hpair
            have := congrArg Prod.fst hpair
            simpa using this.symm
          · rw [if_pos h4] at h
            exact Except.noConfusion h
      · rw [if_pos h3] at h
        exact Except.noConfusion h

/-- C9: after a successful `walletLogin` consumed a nonce, any later login
replaying that nonce within the record's 600-second TTL can never succeed —
it is rejected, and whenever its timestamp is within the 300-second window
the rejection is precisely the replay error — and any login whose signed
timestamp differs from the current time by more than 300 seconds is
rejected with the expiry error (so a fresh nonce with a 400-second-old
timestamp is rejected). -/
theorem wallet_replay_guard_spec (st : AuthState) (inp : WalletLoginInput) (now1 : Int)
    (recover : String → String → Option String) (st2 : AuthState) (reply : String)
    (hsucc : walletLogin st inp now1 recover = .ok (st2, reply)) :
    (∀ inp2 now2 recover2, inp2.nonce = inp.nonce → now2 < now1 + 600 →
      (∀ res, walletLogin st2 inp2 now2 recover2 ≠ .ok res) ∧
      ((now2 - inp2.timestamp).natAbs ≤ 300 →
        walletLogin st2 inp2 now2 recover2 =
          .error "Nonce already used. Potential replay attack detected.")) ∧
    (∀ st' inp' now' recover',
      300 < ((now' : Int) - inp'.timestamp).natAbs →
      walletLogin st' inp' now' recover' = .error "Signature expired. Please try again.") := by
  have hst2 := walletLogin_ok_state st inp now1 recover st2 reply hsucc
  constructor
  · intro inp2 now2 recover2 hn httl
    have hex : nonceExists st2 (nonceKey inp2.nonce) now2 = true := by
      rw [hst2, hn]
      simp [nonceExists, httl]
    constructor
    · intro res hok
      unfold walletLogin at hok
      by_cases h1 : 300 < (now2 - inp2.timestamp).natAbs
      · rw [if_pos h1] at hok
        exact Except.noConfusion hok
      · rw [if_neg h1, if_pos hex] at hok
        exact Except.noConfusion hok
    · intro hts
      have h1 : ¬ 300 < (now2 - inp2.timestamp).natAbs := by omega
      unfold walletLogin
      rw [if_neg h1, if_pos hex]
  · intro st' inp' now' recover' h
    unfold walletLogin
    rw [if_pos h]

def stC9 : AuthState := ⟨[]⟩

def inpC9 : WalletLoginInput := ⟨"ab", "s", expectedMessage "ab" "n1" 1000, "n1", 1000⟩

def recC9 : String → String → Option String := fun _ _ => some "ab"

def st2C9 : AuthState := ⟨[⟨"wallet_nonce:n1", 1600⟩]⟩

def inp2C9 : WalletLoginInput := ⟨"ab", "s", expectedMessage "ab" "n1" 1150, "n1", 1150⟩

def inp3C9 : WalletLoginInput := ⟨"ab", "s", expectedMessage "ab" "n1" 600, "n2", 600⟩

theorem wallet_replay_guard_spec_witness :
    walletLogin stC9 inpC9 1000 recC9 = .ok (st2C9, "ab@wallet") ∧
    walletLogin st2C9 inp2C9 1200 recC9 =
      .error "Nonce already used. Potential replay attack detected." ∧
    walletLogin st2C9 inp3C9 1000 recC9 = .error "Signature expired. Please try again." := by
  have hsucc : walletLogin stC9 inpC9 1000 recC9 = .ok (st2C9, "ab@wallet") := by decide
  have H := wallet_replay_guard_spec stC9 inpC9 1000 recC9 st2C9 "ab@wallet" hsucc
  exact ⟨hsucc, (H.1 inp2C9 1200 recC9 rfl (by decide)).2 (by decide),
    H.2 st2C9 inp3C9 1000 recC9 (by decide)⟩

end MobiTickets
